import Mathlib

set_option maxRecDepth 40000
set_option maxHeartbeats 1600000
set_option linter.unusedVariables false

/-!
Verification development for the go1090 Mode S / ADS-B decoder.

The decoder pipeline (package `mode_s`) is embedded shallowly:

* Go byte slices (`[]byte`, `[14]uint8`) become `List Nat`, with every element
  intended to be `< 256`; wherever a Go expression can overflow `uint8`
  (a shift of a byte), the embedding takes `% 256` at exactly that spot.
* Go `int` becomes `Int` (error-bit codes) or `Nat` (bit fields that are
  provably nonnegative in the source).
* `float64` arithmetic in the CPR solver becomes exact `ℚ` arithmetic;
  the claims proved about the solver concern only its control flow
  (which branch runs), which is insensitive to rounding.
* Wall-clock instants (`time.Time`, `mstime()` milliseconds) become `Int`
  parameters passed to the functions that read the clock.
* The ICAO cache is represented by its membership predicate `seen : Nat → Bool`;
  the single cache insertion performed by `DecodeModesMessage` is returned
  as an `Option Nat` alongside the decoded record.
-/

namespace Go1090

/-! ### Constants (mode_s.go) -/

def MODES_LONG_MSG_BITS : Nat := 112
def MODES_SHORT_MSG_BITS : Nat := 56

def MODES_UNIT_FEET : Nat := 0
def MODES_UNIT_METERS : Nat := 1

/-- The fixed 112-entry Mode S parity table (`modesChecksumTable`). -/
def modesChecksumTable : List Nat :=
  [0x3935ea, 0x1c9af5, 0xf1b77e, 0x78dbbf, 0xc397db, 0x9e31e9, 0xb0e2f0, 0x587178,
   0x2c38bc, 0x161c5e, 0x0b0e2f, 0xfa7d13, 0x82c48d, 0xbe9842, 0x5f4c21, 0xd05c14,
   0x682e0a, 0x341705, 0xe5f186, 0x72f8c3, 0xc68665, 0x9cb936, 0x4e5c9b, 0xd8d449,
   0x939020, 0x49c810, 0x24e408, 0x127204, 0x093902, 0x049c81, 0xfdb444, 0x7eda22,
   0x3f6d11, 0xe04c8c, 0x702646, 0x381323, 0xe3f395, 0x8e03ce, 0x4701e7, 0xdc7af7,
   0x91c77f, 0xb719bb, 0xa476d9, 0xadc168, 0x56e0b4, 0x2b705a, 0x15b82d, 0xf52612,
   0x7a9309, 0xc2b380, 0x6159c0, 0x30ace0, 0x185670, 0x0c2b38, 0x06159c, 0x030ace,
   0x018567, 0xff38b7, 0x80665f, 0xbfc92b, 0xa01e91, 0xaff54c, 0x57faa6, 0x2bfd53,
   0xea04ad, 0x8af852, 0x457c29, 0xdd4410, 0x6ea208, 0x375104, 0x1ba882, 0x0dd441,
   0xf91024, 0x7c8812, 0x3e4409, 0xe0d800, 0x706c00, 0x383600, 0x1c1b00, 0x0e0d80,
   0x0706c0, 0x038360, 0x01c1b0, 0x00e0d8, 0x00706c, 0x003836, 0x001c1b, 0xfff409,
   0x000000, 0x000000, 0x000000, 0x000000, 0x000000, 0x000000, 0x000000, 0x000000,
   0x000000, 0x000000, 0x000000, 0x000000, 0x000000, 0x000000, 0x000000, 0x000000,
   0x000000, 0x000000, 0x000000, 0x000000, 0x000000, 0x000000, 0x000000, 0x000000]

/-- The bit test `(msg[j/8] & (1 << (7 - j%8))) != 0` used throughout
`modesChecksum`, `fixSingleBitErrors` and `fixTwoBitsErrors`. -/
def getBitB (msg : List Nat) (j : Nat) : Bool :=
  (msg.getD (j / 8) 0) &&& (1 <<< (7 - j % 8)) != 0

/-- The loop body of `modesChecksum`: `crc` is folded over the table entries,
`j` being the current message bit index.  The source iterates
`for j := 0; j < bits; j++ { if bit j set { crc ^= table[j+offset] } }`;
here the already-offset table segment is walked structurally while `j` counts
the message bit, which performs the identical sequence of xors. -/
def checksumLoop (msg : List Nat) : Nat → List Nat → Nat → Nat
  | _, [], crc => crc
  | j, t :: ts, crc =>
      checksumLoop msg (j + 1) ts (if getBitB msg j then crc ^^^ t else crc)

/-- The table segment actually used for a frame of `bits` bits:
offset `0` for 112-bit frames, `112 - 56 = 56` for the rest. -/
def chkTable (bits : Nat) : List Nat :=
  (modesChecksumTable.drop (if bits = 112 then 0 else 56)).take bits

/-- `modesChecksum(msg, bits)`: xor of the parity-table entries whose message
bit is 1. -/
def modesChecksum (msg : List Nat) (bits : Nat) : Nat :=
  checksumLoop msg 0 (chkTable bits) 0

/-- `modesMessageLenByType`: message length in bits from the downlink format. -/
def modesMessageLenByType (msgType : Nat) : Nat :=
  match msgType with
  | 16 | 17 | 19 | 20 | 21 => MODES_LONG_MSG_BITS
  | _ => MODES_SHORT_MSG_BITS

/-- The trailing 24-bit CRC field,
`msg[bits/8-3] << 16 | msg[bits/8-2] << 8 | msg[bits/8-1]`, as read by
`DecodeModesMessage`, `fixSingleBitErrors` and `fixTwoBitsErrors`. -/
def trailingCrc (msg : List Nat) (bits : Nat) : Nat :=
  ((msg.getD (bits / 8 - 3) 0) <<< 16) |||
  ((msg.getD (bits / 8 - 2) 0) <<< 8) |||
  (msg.getD (bits / 8 - 1) 0)

/-- `aux[j/8] ^= 1 << (7 - j%8)`: flip bit `j` of the message. -/
def flipBit (msg : List Nat) (j : Nat) : List Nat :=
  msg.set (j / 8) ((msg.getD (j / 8) 0) ^^^ (1 <<< (7 - j % 8)))

/-- `fixSingleBitErrors(msg, bits)`: scan bit positions in ascending order;
at the first `j` whose flip makes the trailing CRC equal the computed
checksum, commit the flipped buffer and return `j`; return `-1` (leaving the
buffer untouched) if no position works.  The source's early-`return` loop is
the first match of the scan, i.e. `List.find?` over `[0, bits)`.  (The source
copies only the first `bits/8` bytes into `aux`; since every flipped index
`j < bits` lies inside those bytes and the remaining bytes are written back
unchanged, committing `aux` equals `flipBit msg j`.) -/
def fixSingleBitErrors (msg : List Nat) (bits : Nat) : List Nat × Int :=
  match (List.range bits).find? (fun j =>
      let aux := flipBit msg j
      trailingCrc aux bits == modesChecksum aux bits) with
  | some j => (flipBit msg j, (j : Int))
  | none => (msg, -1)

/-- The pair sequence of `fixTwoBitsErrors`: `j` ascending in the outer loop,
`i` from `j+1` in the inner loop. -/
def twoBitPairs (bits : Nat) : List (Nat × Nat) :=
  (List.range bits).flatMap (fun j =>
    (List.range' (j + 1) (bits - (j + 1))).map (fun i => (j, i)))

/-- `fixTwoBitsErrors(msg, bits)`: try every pair `j < i`; on the first pair
whose double flip makes the trailing CRC match, commit the flipped buffer and
return `j | (i << 8)`; otherwise return `-1`. -/
def fixTwoBitsErrors (msg : List Nat) (bits : Nat) : List Nat × Int :=
  match (twoBitPairs bits).find? (fun p =>
      let aux := flipBit (flipBit msg p.1) p.2
      trailingCrc aux bits == modesChecksum aux bits) with
  | some p => (flipBit (flipBit msg p.1) p.2, ((p.1 ||| (p.2 <<< 8) : Nat) : Int))
  | none => (msg, -1)

/-- `decodeAC13Field`: 13-bit AC altitude (DF 0/4/16/20).  Note that in the
Go source `n` has type `byte`, so the shift `(msg[2]&31)<<6` is truncated
mod 256 — the embedding reproduces that truncation. -/
def decodeAC13Field (msg : List Nat) (unit : Nat) : Int × Nat :=
  let m_bit := msg.getD 3 0 &&& (1 <<< 6)
  let q_bit := msg.getD 3 0 &&& (1 <<< 4)
  if m_bit = 0 then
    if q_bit ≠ 0 then
      let n := (((msg.getD 2 0 &&& 31) <<< 6) % 256) |||
               ((msg.getD 3 0 &&& 0x80) >>> 2) |||
               ((msg.getD 3 0 &&& 0x20) >>> 1) |||
               (msg.getD 3 0 &&& 15)
      ((n : Int) * 25 - 1000, MODES_UNIT_FEET)
    else
      (0, MODES_UNIT_FEET)
  else
    (0, MODES_UNIT_METERS)

/-- `decodeAC12Field`: 12-bit AC altitude (DF 17).  In the Go source `n` has
type `byte` (uint8), so `(msg[5]>>1)<<4` loses its top three bits — the
embedding reproduces that truncation with `% 256`. -/
def decodeAC12Field (msg : List Nat) (unit : Nat) : Int × Nat :=
  let q_bit := msg.getD 5 0 &&& 1
  if q_bit ≠ 0 then
    let n := (((msg.getD 5 0 >>> 1) <<< 4) % 256) |||
             ((msg.getD 6 0 &&& 0xF0) >>> 4)
    ((n : Int) * 25 - 1000, MODES_UNIT_FEET)
  else
    (0, unit)

/-- The 64-entry AIS charset used for DF 17 callsigns. -/
def ais_charset : List Char :=
  "?ABCDEFGHIJKLMNOPQRSTUVWXYZ????? ???????????????0123456789??????".toList

/-- The decoded-message record (`ModeSMessage`).  Fields are zero-initialised
as in Go.  The `heading` produced by the floating-point `atan2` path of
ME type 19 sub 1/2 is not modelled (left `0`); no other field depends on it. -/
structure ModeSMessage where
  msg : List Nat := []
  msgbits : Nat := 0
  msgtype : Nat := 0
  crcok : Bool := false
  crc : Nat := 0
  errorbit : Int := -1
  aa1 : Nat := 0
  aa2 : Nat := 0
  aa3 : Nat := 0
  ca : Nat := 0
  metype : Nat := 0
  mesub : Nat := 0
  heading_is_valid : Nat := 0
  heading : Int := 0
  aircraft_type : Nat := 0
  fflag : Nat := 0
  tflag : Nat := 0
  raw_latitude : Nat := 0
  raw_longitude : Nat := 0
  flight : List Char := []
  ew_dir : Nat := 0
  ew_velocity : Nat := 0
  ns_dir : Nat := 0
  ns_velocity : Nat := 0
  vert_rate_source : Nat := 0
  vert_rate_sign : Nat := 0
  vert_rate : Nat := 0
  velocity : Nat := 0
  fs : Nat := 0
  dr : Nat := 0
  um : Nat := 0
  identity : Nat := 0
  altitude : Int := 0
  unit : Nat := 0
deriving Repr, DecidableEq

/-- `bruteForceAP`: for the AP-xored downlink formats, xor the computed CRC
into the last three bytes of a copy and accept the recovered address iff the
cache has seen it.  Returns the recovered `(aa1, aa2, aa3)` on success.
The copy `aux` is a 14-byte (`MODES_LONG_MSG_BYTES`) buffer holding the
message bytes. -/
def bruteForceAP (seen : Nat → Bool) (msg : List Nat) (msgtype msgbits : Nat) :
    Option (Nat × Nat × Nat) :=
  if msgtype = 0 ∨ msgtype = 4 ∨ msgtype = 5 ∨ msgtype = 16 ∨
     msgtype = 20 ∨ msgtype = 21 ∨ msgtype = 24 then
    let lastbyte := msgbits / 8 - 1
    let aux := (List.range 14).map (fun i => msg.getD i 0)
    let crc := modesChecksum aux msgbits
    let aux := aux.set lastbyte ((aux.getD lastbyte 0) ^^^ (crc &&& 0xff))
    let aux := aux.set (lastbyte - 1) ((aux.getD (lastbyte - 1) 0) ^^^ ((crc >>> 8) &&& 0xff))
    let aux := aux.set (lastbyte - 2) ((aux.getD (lastbyte - 2) 0) ^^^ ((crc >>> 16) &&& 0xff))
    let addr := (aux.getD lastbyte 0) ||| ((aux.getD (lastbyte - 1) 0) <<< 8) |||
                ((aux.getD (lastbyte - 2) 0) <<< 16)
    if seen addr then
      some (aux.getD (lastbyte - 2) 0, aux.getD (lastbyte - 1) 0, aux.getD lastbyte 0)
    else
      none
  else
    none

/-- The CRC check-and-repair stage of `DecodeModesMessage` (the block guarded
by `!mm.crcok && self.fix_errors && (mm.msgtype == 11 || mm.msgtype == 17)`).
Returns the (possibly repaired) buffer, `mm.crc`, `mm.crcok`, `mm.errorbit`.
Note the faithful Go `else if` semantics: `fixTwoBitsErrors` runs — and its
result is assigned to `mm.errorbit`, its commit mutating the buffer — as the
init statement of the `else if`, before the `aggressive && msgtype == 17`
condition is consulted. -/
def repairStage (fix_errors aggressive : Bool) (msgtype msgbits : Nat)
    (msg : List Nat) (crc : Nat) (crcok : Bool) : List Nat × Nat × Bool × Int :=
  if crcok = false ∧ fix_errors = true ∧ (msgtype = 11 ∨ msgtype = 17) then
    match fixSingleBitErrors msg msgbits with
    | (msg1, e1) =>
      if e1 ≠ -1 then
        (msg1, modesChecksum msg1 msgbits, true, e1)
      else
        match fixTwoBitsErrors msg1 msgbits with
        | (msg2, e2) =>
          if aggressive = true ∧ msgtype = 17 ∧ e2 ≠ -1 then
            (msg2, modesChecksum msg2 msgbits, true, e2)
          else
            (msg2, crc, crcok, e2)
  else
    (msg, crc, crcok, -1)

/-- The address-validation stage of `DecodeModesMessage`: for non-DF-11/17
formats run `bruteForceAP` and overwrite `crcok` with its verdict; for
DF 11/17 with clean parity (`crcok && errorbit == -1`) insert the ICAO
address into the cache.  Returns `(crcok, aa1, aa2, aa3, inserted)`. -/
def addrStage (seen : Nat → Bool) (msgtype msgbits : Nat) (msg : List Nat)
    (crcok : Bool) (errorbit : Int) (aa1 aa2 aa3 : Nat) :
    Bool × Nat × Nat × Nat × Option Nat :=
  if msgtype ≠ 11 ∧ msgtype ≠ 17 then
    match bruteForceAP seen msg msgtype msgbits with
    | some (x1, x2, x3) => (true, x1, x2, x3, none)
    | none => (false, aa1, aa2, aa3, none)
  else
    if crcok = true ∧ errorbit = -1 then
      (crcok, aa1, aa2, aa3, some ((aa1 <<< 16) ||| (aa2 <<< 8) ||| aa3))
    else
      (crcok, aa1, aa2, aa3, none)

/-- `DecodeModesMessage`: decode a raw frame into a `ModeSMessage`.
`seen` is the membership predicate of the ICAO cache; the returned
`Option Nat` is the address inserted into the cache (at most one insertion
happens per call).  The caller's slice is copied into `mm.msg` first; the
embedding's `msg` is that internal copy.
ME type 19 sub 1/2: `velocity` is `int(math.Sqrt(ns²+ew²))`, which on this
value range (< 2¹¹ per component) equals `Nat.sqrt`; the `atan2`-derived
`heading` is not modelled.  Sub 3/4: `int((360.0/128) * x)` is the exact
dyadic product `45*x/16` truncated, since `x < 256`. -/
def decodeModesMessage (fix_errors aggressive : Bool) (seen : Nat → Bool)
    (msgIn : List Nat) : ModeSMessage × Option Nat :=
  let msg0 := msgIn
  let msgtype := msg0.getD 0 0 >>> 3
  let msgbits := modesMessageLenByType msgtype
  let crc0 := trailingCrc msg0 msgbits
  let crc2 := modesChecksum msg0 msgbits
  let crcok0 := crc0 == crc2
  let r := repairStage fix_errors aggressive msgtype msgbits msg0 crc0 crcok0
  let msg := r.1
  let crc := r.2.1
  let crcok1 := r.2.2.1
  let errorbit := r.2.2.2
  let ca := msg.getD 0 0 &&& 7
  let aa1 := msg.getD 1 0
  let aa2 := msg.getD 2 0
  let aa3 := msg.getD 3 0
  let metype := msg.getD 4 0 >>> 3
  let mesub := msg.getD 4 0 &&& 7
  let fs := msg.getD 0 0 &&& 7
  let dr := (msg.getD 1 0 >>> 3) &&& 31
  let um := ((msg.getD 1 0 &&& 7) <<< 3) ||| (msg.getD 2 0 >>> 5)
  let qa := ((msg.getD 3 0 &&& 0x80) >>> 5) ||| (msg.getD 2 0 &&& 0x02) |||
            ((msg.getD 2 0 &&& 0x08) >>> 3)
  let qb := ((msg.getD 3 0 &&& 0x02) <<< 1) ||| ((msg.getD 3 0 &&& 0x08) >>> 2) |||
            ((msg.getD 3 0 &&& 0x20) >>> 5)
  let qc := ((msg.getD 2 0 &&& 0x01) <<< 2) ||| ((msg.getD 2 0 &&& 0x04) >>> 1) |||
            ((msg.getD 2 0 &&& 0x10) >>> 4)
  let qd := ((msg.getD 3 0 &&& 0x01) <<< 2) ||| ((msg.getD 3 0 &&& 0x04) >>> 1) |||
            ((msg.getD 3 0 &&& 0x10) >>> 4)
  let identity := qa * 1000 + qb * 100 + qc * 10 + qd
  let s := addrStage seen msgtype msgbits msg crcok1 errorbit aa1 aa2 aa3
  let crcok := s.1
  let aa1 := s.2.1
  let aa2 := s.2.2.1
  let aa3 := s.2.2.2.1
  let inserted := s.2.2.2.2
  let au := if msgtype = 0 ∨ msgtype = 4 ∨ msgtype = 16 ∨ msgtype = 20 then
              decodeAC13Field msg 0
            else (0, 0)
  let mmBase : ModeSMessage :=
    { msg := msg, msgbits := msgbits, msgtype := msgtype, crcok := crcok,
      crc := crc, errorbit := errorbit, aa1 := aa1, aa2 := aa2, aa3 := aa3,
      ca := ca, metype := metype, mesub := mesub, fs := fs, dr := dr, um := um,
      identity := identity, altitude := au.1, unit := au.2 }
  let mmFinal :=
    if msgtype = 17 then
      if 1 ≤ metype ∧ metype ≤ 4 then
        { mmBase with
          aircraft_type := metype - 1,
          flight :=
            [ais_charset.getD (msg.getD 5 0 >>> 2) '?',
             ais_charset.getD (((msg.getD 5 0 &&& 3) <<< 4) ||| (msg.getD 6 0 >>> 4)) '?',
             ais_charset.getD (((msg.getD 6 0 &&& 15) <<< 2) ||| (msg.getD 7 0 >>> 6)) '?',
             ais_charset.getD (msg.getD 7 0 &&& 63) '?',
             ais_charset.getD (msg.getD 8 0 >>> 2) '?',
             ais_charset.getD (((msg.getD 8 0 &&& 3) <<< 4) ||| (msg.getD 9 0 >>> 4)) '?',
             ais_charset.getD (((msg.getD 9 0 &&& 15) <<< 2) ||| (msg.getD 10 0 >>> 6)) '?',
             ais_charset.getD (msg.getD 10 0 &&& 63) '?',
             Char.ofNat 0] }
      else if 9 ≤ metype ∧ metype ≤ 18 then
        let au17 := decodeAC12Field msg au.2
        { mmBase with
          fflag := msg.getD 6 0 &&& (1 <<< 2),
          tflag := msg.getD 6 0 &&& (1 <<< 3),
          altitude := au17.1,
          unit := au17.2,
          raw_latitude := ((msg.getD 6 0 &&& 3) <<< 15) ||| (msg.getD 7 0 <<< 7) |||
                          (msg.getD 8 0 >>> 1),
          raw_longitude := ((msg.getD 8 0 &&& 1) <<< 16) ||| (msg.getD 9 0 <<< 8) |||
                           (msg.getD 10 0) }
      else if metype = 19 ∧ 1 ≤ mesub ∧ mesub ≤ 4 then
        if mesub = 1 ∨ mesub = 2 then
          let ew_velocity := ((msg.getD 5 0 &&& 3) <<< 8) ||| msg.getD 6 0
          let ns_velocity := ((msg.getD 7 0 &&& 0x7f) <<< 3) ||| ((msg.getD 8 0 &&& 0xe0) >>> 5)
          { mmBase with
            ew_dir := (msg.getD 5 0 &&& 4) >>> 2,
            ew_velocity := ew_velocity,
            ns_dir := (msg.getD 7 0 &&& 0x80) >>> 7,
            ns_velocity := ns_velocity,
            vert_rate_source := (msg.getD 8 0 &&& 0x10) >>> 4,
            vert_rate_sign := (msg.getD 8 0 &&& 0x8) >>> 3,
            vert_rate := ((msg.getD 8 0 &&& 7) <<< 6) ||| ((msg.getD 9 0 &&& 0xfc) >>> 2),
            velocity := Nat.sqrt (ns_velocity * ns_velocity + ew_velocity * ew_velocity),
            heading := 0 }
        else
          { mmBase with
            heading_is_valid := msg.getD 5 0 &&& (1 <<< 2),
            heading := ((45 * (((msg.getD 5 0 &&& 3) <<< 5) ||| (msg.getD 6 0 >>> 3))) / 16 : Nat) }
      else
        mmBase
    else
      mmBase
  (mmFinal, inserted)

/-! ### rtl_adsb line parser (package rtl_adsb) -/

/-- A single hex digit as understood by `strconv.ParseUint(_, 16, 8)`. -/
def hexDigit (c : Char) : Option Nat :=
  if '0' ≤ c ∧ c ≤ '9' then some (c.toNat - '0'.toNat)
  else if 'a' ≤ c ∧ c ≤ 'f' then some (c.toNat - 'a'.toNat + 10)
  else if 'A' ≤ c ∧ c ≤ 'F' then some (c.toNat - 'A'.toNat + 10)
  else none

/-- `parseHex`: `strconv.ParseUint(hexstr, 16, 8)` on a two-character slice
with the error discarded — a syntax error yields the zero value.  (Two hex
digits never overflow 8 bits, so no range error can occur.) -/
def parseHex (c1 c2 : Char) : Nat :=
  match hexDigit c1, hexDigit c2 with
  | some a, some b => 16 * a + b
  | _, _ => 0

/-- `isValidMsgText`: length must be exactly 30, first character `*`,
last character `;`.  (The 28 middle characters are not inspected.) -/
def isValidMsgText (hexstr : List Char) : Bool :=
  if hexstr.length ≠ 30 then false
  else if hexstr.getD 0 ' ' ≠ '*' ∨ hexstr.getD 29 ' ' ≠ ';' then false
  else true

/-- `parseADSB`: turn a line into a 14-byte frame, or `none` if the line
shape is rejected by `isValidMsgText`. -/
def parseADSB (hexstr : List Char) : Option (List Nat) :=
  if isValidMsgText hexstr then
    some ((List.range 14).map (fun i =>
      parseHex (hexstr.getD (2 * i + 1) ' ') (hexstr.getD (2 * i + 2) ' ')))
  else
    none

/-! ### Sky aggregator and CPR solver (mode_s/aircraft.go, the interactive
version actually used by the gocui front end: exported fields, and a
`RemoveStaleAircrafts` that deletes the collected keys) -/

def MODES_AIRCRAFT_TTL : Int := 60

/-- An aircraft track (`Aircraft`).  `seen` is the `time.Time` instant in
nanoseconds; `oddCprTime`/`evenCprTime` are the `mstime()` millisecond
stamps.  The display-only `HexAddr` string (`fmt.Sprintf("%06X", addr)`) is
not modelled.  `float64` coordinates are modelled as exact rationals. -/
structure Aircraft where
  addr : Nat
  flight : List Char := []
  altitude : Int := 0
  speed : Nat := 0
  track : Int := 0
  seen : Int
  messages : Int := 0
  oddCprLat : Nat := 0
  oddCprLon : Nat := 0
  evenCprLat : Nat := 0
  evenCprLon : Nat := 0
  lat : ℚ := 0
  lon : ℚ := 0
  oddCprTime : Int := 0
  evenCprTime : Int := 0
deriving DecidableEq

/-- `NewAircraft`: fresh track with `Seen = time.Now()`, other fields zero. -/
def NewAircraft (addr : Nat) (now : Int) : Aircraft :=
  { addr := addr, seen := now }

/-- `cprModFunction`: Go's truncated `%` followed by a conditional `+ b`. -/
def cprModFunction (a b : Int) : Int :=
  let res := Int.tmod a b
  if res < 0 then res + b else res

/-- `cprNLFunction`: the 1090-WP-9-14 latitude-zone table. -/
def cprNLFunction (lat : ℚ) : Int :=
  let lat := if lat < 0 then -lat else lat
  if lat < 10.47047130 then 59
  else if lat < 14.82817437 then 58
  else if lat < 18.18626357 then 57
  else if lat < 21.02939493 then 56
  else if lat < 23.54504487 then 55
  else if lat < 25.82924707 then 54
  else if lat < 27.93898710 then 53
  else if lat < 29.91135686 then 52
  else if lat < 31.77209708 then 51
  else if lat < 33.53993436 then 50
  else if lat < 35.22899598 then 49
  else if lat < 36.85025108 then 48
  else if lat < 38.41241892 then 47
  else if lat < 39.92256684 then 46
  else if lat < 41.38651832 then 45
  else if lat < 42.80914012 then 44
  else if lat < 44.19454951 then 43
  else if lat < 45.54626723 then 42
  else if lat < 46.86733252 then 41
  else if lat < 48.16039128 then 40
  else if lat < 49.42776439 then 39
  else if lat < 50.67150166 then 38
  else if lat < 51.89342469 then 37
  else if lat < 53.09516153 then 36
  else if lat < 54.27817472 then 35
  else if lat < 55.44378444 then 34
  else if lat < 56.59318756 then 33
  else if lat < 57.72747354 then 32
  else if lat < 58.84763776 then 31
  else if lat < 59.95459277 then 30
  else if lat < 61.04917774 then 29
  else if lat < 62.13216659 then 28
  else if lat < 63.20427479 then 27
  else if lat < 64.26616523 then 26
  else if lat < 65.31845310 then 25
  else if lat < 66.36171008 then 24
  else if lat < 67.39646774 then 23
  else if lat < 68.42322022 then 22
  else if lat < 69.44242631 then 21
  else if lat < 70.45451075 then 20
  else if lat < 71.45986473 then 19
  else if lat < 72.45884545 then 18
  else if lat < 73.45177442 then 17
  else if lat < 74.43893416 then 16
  else if lat < 75.42056257 then 15
  else if lat < 76.39684391 then 14
  else if lat < 77.36789461 then 13
  else if lat < 78.33374083 then 12
  else if lat < 79.29428225 then 11
  else if lat < 80.24923213 then 10
  else if lat < 81.19801349 then 9
  else if lat < 82.13956981 then 8
  else if lat < 83.07199445 then 7
  else if lat < 83.99173563 then 6
  else if lat < 84.89166191 then 5
  else if lat < 85.75541621 then 4
  else if lat < 86.53536998 then 3
  else if lat < 87.00000000 then 2
  else 1

/-- `cprNFunction`. -/
def cprNFunction (lat : ℚ) (isodd : Int) : Int :=
  let nl := cprNLFunction lat - isodd
  if nl < 1 then 1 else nl

/-- `cprDlonFunction`. -/
def cprDlonFunction (lat : ℚ) (isodd : Int) : ℚ :=
  360 / (cprNFunction lat isodd : ℚ)

/-- The latitude index `j` computed by `decodeCPR`
(`int(math.Floor(((59*lat0 - 60*lat1) / 131072) + 0.5))`). -/
def cprRawJ (a : Aircraft) : Int :=
  Int.floor (((59 * (a.evenCprLat : ℚ) - 60 * (a.oddCprLat : ℚ)) / 131072) + 1/2)

/-- `rlat0` as computed by `decodeCPR`, including the `-360` wrap. -/
def cprRlat0 (a : Aircraft) : ℚ :=
  let r := (360 / 60 : ℚ) * ((cprModFunction (cprRawJ a) 60 : ℚ) + (a.evenCprLat : ℚ) / 131072)
  if r ≥ 270 then r - 360 else r

/-- `rlat1` as computed by `decodeCPR`, including the `-360` wrap. -/
def cprRlat1 (a : Aircraft) : ℚ :=
  let r := (360 / 59 : ℚ) * ((cprModFunction (cprRawJ a) 59 : ℚ) + (a.oddCprLat : ℚ) / 131072)
  if r ≥ 270 then r - 360 else r

/-- `decodeCPR`: resolve an even/odd CPR pair into latitude/longitude.
If the two computed relative latitudes fall in different NL zones the
function returns without touching the aircraft. -/
def decodeCPR (a : Aircraft) : Aircraft :=
  let rlat0 := cprRlat0 a
  let rlat1 := cprRlat1 a
  if cprNLFunction rlat0 ≠ cprNLFunction rlat1 then
    a
  else
    let ll :=
      if a.evenCprTime > a.oddCprTime then
        let ni := cprNFunction rlat0 0
        let m := Int.floor (((((a.evenCprLon : ℚ) * ((cprNLFunction rlat0 : ℚ) - 1)) -
                  ((a.oddCprLon : ℚ) * (cprNLFunction rlat0 : ℚ))) / 131072) + 1/2)
        (rlat0, cprDlonFunction rlat0 0 * ((cprModFunction m ni : ℚ) + (a.evenCprLon : ℚ) / 131072))
      else
        let ni := cprNFunction rlat1 1
        let m := Int.floor (((((a.evenCprLon : ℚ) * ((cprNLFunction rlat1 : ℚ) - 1)) -
                  ((a.oddCprLon : ℚ) * (cprNLFunction rlat1 : ℚ))) / 131072) + 1/2)
        (rlat1, cprDlonFunction rlat1 1 * ((cprModFunction m ni : ℚ) + (a.oddCprLon : ℚ) / 131072))
    let lon := if ll.2 > 180 then ll.2 - 360 else ll.2
    { a with lat := ll.1, lon := lon }

/-- The sky: aircraft keyed by ICAO address, plus the prune TTL
(`NewSky` sets it to `MODES_AIRCRAFT_TTL`).  The Go map is modelled by its
lookup function. -/
structure Sky where
  aircrafts : Nat → Option Aircraft
  aircraft_ttl : Int

/-- `NewSky`. -/
def NewSky : Sky :=
  { aircrafts := fun _ => none, aircraft_ttl := MODES_AIRCRAFT_TTL }

/-- The per-downlink-format field updates performed by `UpdateData` on the
(already `Seen`-stamped) aircraft. -/
def applyMessage (a1 : Aircraft) (nowMs : Int) (mm : ModeSMessage) : Aircraft :=
  if mm.msgtype = 0 ∨ mm.msgtype = 4 ∨ mm.msgtype = 20 then
    { a1 with altitude := mm.altitude }
  else if mm.msgtype = 17 then
    if 1 ≤ mm.metype ∧ mm.metype ≤ 4 then
      { a1 with flight := mm.flight }
    else if 9 ≤ mm.metype ∧ mm.metype ≤ 18 then
      let a3 := { a1 with altitude := mm.altitude }
      let a4 :=
        if mm.fflag ≠ 0 then
          { a3 with oddCprLat := mm.raw_latitude, oddCprLon := mm.raw_longitude,
                    oddCprTime := nowMs }
        else
          { a3 with evenCprLat := mm.raw_latitude, evenCprLon := mm.raw_longitude,
                    evenCprTime := nowMs }
      if |a4.evenCprTime - a4.oddCprTime| ≤ 10000 then decodeCPR a4 else a4
    else if mm.metype = 19 then
      if mm.mesub = 1 ∨ mm.mesub = 2 then
        { a1 with speed := mm.velocity, track := mm.heading }
      else a1
    else a1
  else a1

/-- `UpdateData`: drop frames whose CRC is not ok, otherwise upsert the
aircraft, stamp `Seen`/`Messages`, and apply the per-format updates.
`now` is the `time.Now()` instant (ns); `nowMs` is `mstime()` (ms), the
clock used for the CPR half timestamps. -/
def updateData (sky : Sky) (now nowMs : Int) (mm : ModeSMessage) : Sky :=
  if mm.crcok = false then
    sky
  else
    let addr := (mm.aa1 <<< 16) ||| (mm.aa2 <<< 8) ||| mm.aa3
    let a0 := match sky.aircrafts addr with
              | some a => a
              | none => NewAircraft addr now
    let a1 := { a0 with seen := now, messages := a0.messages + 1 }
    let a2 := applyMessage a1 nowMs mm
    { sky with aircrafts := fun k => if k = addr then some a2 else sky.aircrafts k }

/-- `RemoveStaleAircrafts`: delete every aircraft whose age, truncated to
whole seconds (`int(dur.Seconds())`, exact for durations below ~39 hours),
exceeds the TTL.  The Go code first collects the stale keys and then deletes
them; on the map value this equals the pointwise filter below. -/
def removeStaleAircrafts (sky : Sky) (now : Int) : Sky :=
  { sky with aircrafts := fun k =>
      match sky.aircrafts k with
      | some a => if (now - a.seen).tdiv 1000000000 > sky.aircraft_ttl then none else some a
      | none => none }

/-! ### Concrete frames used by the scenarios -/

/-- Scenario S2 frame `8D40621D58C382D690C8AC2863A7` (DF 17 airborne
position, even, valid CRC). -/
def s2frame : List Nat :=
  [0x8D, 0x40, 0x62, 0x1D, 0x58, 0xC3, 0x82, 0xD6, 0x90, 0xC8, 0xAC, 0x28, 0x63, 0xA7]

/-- A valid DF 11 frame: `58ABCDEF0E62AC` padded to 14 bytes
(`0x58 >>> 3 = 11`, trailing CRC `0x0E62AC` equals the checksum). -/
def f011 : List Nat :=
  [0x58, 0xAB, 0xCD, 0xEF, 0x0E, 0x62, 0xAC, 0, 0, 0, 0, 0, 0, 0]

/-- `f011` with bits 5 and 6 (two CA bits) flipped: a two-bit corruption
that keeps `df = 11`. -/
def f011c : List Nat :=
  [0x5E, 0xAB, 0xCD, 0xEF, 0x0E, 0x62, 0xAC, 0, 0, 0, 0, 0, 0, 0]

/-- A DF 18 frame with valid CRC: `90010203506B1F` padded to 14 bytes
(`0x90 >>> 3 = 18`, trailing CRC `0x506B1F` equals the checksum). -/
def f018 : List Nat :=
  [0x90, 0x01, 0x02, 0x03, 0x50, 0x6B, 0x1F, 0, 0, 0, 0, 0, 0, 0]

/-! ### Generic helper lemmas -/

theorem xor_eq_zero_iff {a b : Nat} : a ^^^ b = 0 ↔ a = b := by
  constructor
  · intro h
    have h2 := congrArg (· ^^^ b) h
    simpa [Nat.xor_assoc] using h2
  · rintro rfl
    exact Nat.xor_self a

theorem neg_tmod_eq (a b : Int) : Int.tmod (-a) b = -Int.tmod a b := by
  rw [Int.tmod_def, Int.tmod_def, Int.neg_tdiv]
  ring

/-- Bound on Go's truncated `%`: for positive `b` the remainder exceeds `-b`. -/
theorem neg_lt_tmod (a : Int) {b : Int} (hb : 0 < b) : -b < Int.tmod a b := by
  rcases le_or_lt 0 a with ha | ha
  · have := Int.tmod_nonneg b ha
    omega
  · have h1 : Int.tmod (-a) b < b := Int.tmod_lt_of_pos (-a) hb
    have h2 : Int.tmod (-a) b = -Int.tmod a b := neg_tmod_eq a b
    omega

/-! ### Claim C9 -/

/-- Claim C9: for every integer `a` and every `b > 0`, `cprModFunction a b`
is nonnegative, strictly less than `b`, and equals `((a % b) + b) % b`
(`%` being Go's truncated remainder, `Int.tmod`). -/
theorem C9_cprModFunction_spec (a b : Int) (hb : 0 < b) :
    0 ≤ cprModFunction a b ∧ cprModFunction a b < b ∧
    cprModFunction a b = Int.tmod (Int.tmod a b + b) b := by
  have h1 : Int.tmod a b < b := Int.tmod_lt_of_pos a hb
  have h2 : -b < Int.tmod a b := neg_lt_tmod a hb
  unfold cprModFunction
  by_cases hm : Int.tmod a b < 0
  · rw [if_pos hm]
    exact ⟨by omega, by omega, (Int.tmod_eq_of_lt (by omega) (by omega)).symm⟩
  · rw [if_neg hm]
    refine ⟨by omega, h1, ?_⟩
    have hnn : (0 : Int) ≤ Int.tmod a b := by omega
    have key : Int.tmod (Int.tmod a b + b) b = (Int.tmod a b + b) % b :=
      Int.tmod_eq_emod (by omega) (by omega)
    have key2 : Int.tmod a b + b = Int.tmod a b + b * 1 := by ring
    rw [key, key2, Int.add_mul_emod_self_left, Int.emod_eq_of_lt hnn h1]

/-- Witness for C9 at `a = -7`, `b = 3` (result `2`). -/
theorem C9_witness :
    (0 : Int) < 3 ∧
    (0 ≤ cprModFunction (-7) 3 ∧ cprModFunction (-7) 3 < 3 ∧
      cprModFunction (-7) 3 = Int.tmod (Int.tmod (-7) 3 + 3) 3) :=
  ⟨by decide, C9_cprModFunction_spec (-7) 3 (by decide)⟩

/-! ### Claim C7 -/

/-- Claim C7: if the NL zones of the two computed relative latitudes differ,
`decodeCPR` leaves the aircraft record (all fields) unchanged. -/
theorem C7_decodeCPR_zone_mismatch (a : Aircraft)
    (h : cprNLFunction (cprRlat0 a) ≠ cprNLFunction (cprRlat1 a)) :
    decodeCPR a = a := by
  unfold decodeCPR
  rw [if_pos h]

/-- An aircraft whose even/odd CPR latitudes land in different NL zones
(`rlat0 = -10.44...`, `rlat1 = -10.48...`, straddling the 10.47047130°
break point). -/
def acZoneMismatch : Aircraft :=
  { addr := 1, seen := 0, evenCprLat := 34079, oddCprLat := 36822 }

theorem acZone_rawJ : cprRawJ acZoneMismatch = -2 := by
  unfold cprRawJ acZoneMismatch
  norm_num

theorem acZone_NL : cprNLFunction (cprRlat0 acZoneMismatch) = 59 ∧
    cprNLFunction (cprRlat1 acZoneMismatch) = 58 := by
  have hm0 : cprModFunction (-2) 60 = 58 := by decide
  have hm1 : cprModFunction (-2) 59 = 57 := by decide
  have h0 : cprRlat0 acZoneMismatch = -684195/65536 := by
    unfold cprRlat0
    rw [acZone_rawJ, hm0]
    rw [if_pos (by norm_num [acZoneMismatch])]
    norm_num [acZoneMismatch]
  have h1 : cprRlat1 acZoneMismatch = -81115920/7733248 := by
    unfold cprRlat1
    rw [acZone_rawJ, hm1]
    rw [if_pos (by norm_num [acZoneMismatch])]
    norm_num [acZoneMismatch]
  constructor
  · rw [h0]
    norm_num [cprNLFunction]
  · rw [h1]
    norm_num [cprNLFunction]

/-- Witness for C7: the zone-mismatch aircraft is returned unchanged. -/
theorem C7_witness :
    cprNLFunction (cprRlat0 acZoneMismatch) ≠ cprNLFunction (cprRlat1 acZoneMismatch) ∧
    decodeCPR acZoneMismatch = acZoneMismatch := by
  have h : cprNLFunction (cprRlat0 acZoneMismatch) ≠ cprNLFunction (cprRlat1 acZoneMismatch) := by
    rw [acZone_NL.1, acZone_NL.2]
    decide
  exact ⟨h, C7_decodeCPR_zone_mismatch acZoneMismatch h⟩

/-! ### Claim C5 -/

theorem decodeCPR_seen (a : Aircraft) : (decodeCPR a).seen = a.seen := by
  unfold decodeCPR
  by_cases h : cprNLFunction (cprRlat0 a) ≠ cprNLFunction (cprRlat1 a)
  · rw [if_pos h]
  · rw [if_neg h]

theorem applyMessage_seen (a : Aircraft) (nowMs : Int) (mm : ModeSMessage) :
    (applyMessage a nowMs mm).seen = a.seen := by
  unfold applyMessage
  split_ifs <;> simp [decodeCPR_seen, apply_ite Aircraft.seen]

theorem updateData_ttl (sky : Sky) (now nowMs : Int) (mm : ModeSMessage) :
    (updateData sky now nowMs mm).aircraft_ttl = sky.aircraft_ttl := by
  unfold updateData
  split <;> rfl

/-- After a successful `UpdateData`, the message's aircraft is present and its
`Seen` stamp is the update instant. -/
theorem updateData_lookup (sky : Sky) (now nowMs : Int) (mm : ModeSMessage)
    (hok : mm.crcok = true) :
    ∃ a2 : Aircraft,
      (updateData sky now nowMs mm).aircrafts
          ((mm.aa1 <<< 16) ||| (mm.aa2 <<< 8) ||| mm.aa3) = some a2 ∧
      a2.seen = now := by
  unfold updateData
  rw [hok]
  simp only [Bool.true_eq_false, if_false, eq_self_iff_true, if_true]
  exact ⟨_, rfl, by rw [applyMessage_seen]⟩

/-- Claim C5 (amended): after `UpdateData` stamps the aircraft at `now` and a
`RemoveStaleAircrafts` sweep runs at `t1`, the aircraft is still present
exactly when the age truncated to whole seconds (`int(dur.Seconds())`) is at
most 60 — i.e. it survives whenever `t1 - now < 61 s` (including ages
strictly between 60 s and 61 s), and is removed only when `t1 - now ≥ 61 s`. -/
theorem C5_stale_sweep_boundary (sky : Sky) (mm : ModeSMessage) (now nowMs t1 : Int)
    (hok : mm.crcok = true) (httl : sky.aircraft_ttl = 60) :
    (((removeStaleAircrafts (updateData sky now nowMs mm) t1).aircrafts
        ((mm.aa1 <<< 16) ||| (mm.aa2 <<< 8) ||| mm.aa3)).isSome = true ↔
      (t1 - now).tdiv 1000000000 ≤ 60) := by
  obtain ⟨a2, hlook, hseen⟩ := updateData_lookup sky now nowMs mm hok
  unfold removeStaleAircrafts
  simp only [hlook, hseen, updateData_ttl, httl]
  split_ifs with h
  · simp only [Option.isSome_none, Bool.false_eq_true, false_iff]
    omega
  · simp only [Option.isSome_some, true_iff]
    omega

/-- The decoded record used in the C5 scenario (a clean frame from aircraft
`0x010101`). -/
def mmC5 : ModeSMessage := { crcok := true, aa1 := 1, aa2 := 1, aa3 := 1 }

/-- Claim C5 counterexample: an aircraft last seen 60.5 s before the sweep —
strictly more than 60 s — is NOT removed (`int(60.5) = 60` is not `> 60`). -/
theorem C5_counterexample :
    (60500000000 : Int) - 0 > 60 * 1000000000 ∧
    ((removeStaleAircrafts (updateData NewSky 0 0 mmC5) 60500000000).aircrafts
        ((mmC5.aa1 <<< 16) ||| (mmC5.aa2 <<< 8) ||| mmC5.aa3)).isSome = true := by
  constructor
  · decide
  · decide

/-- Witness for the amended C5 at `now = 0`, sweep at `t1 = 60.5 s`. -/
theorem C5_witness :
    mmC5.crcok = true ∧ NewSky.aircraft_ttl = 60 ∧
    (((removeStaleAircrafts (updateData NewSky 0 0 mmC5) 60500000000).aircrafts
        ((mmC5.aa1 <<< 16) ||| (mmC5.aa2 <<< 8) ||| mmC5.aa3)).isSome = true ↔
      ((60500000000 : Int) - 0).tdiv 1000000000 ≤ 60) :=
  ⟨rfl, rfl, C5_stale_sweep_boundary NewSky mmC5 0 0 60500000000 rfl rfl⟩

/-! ### Claim C6 -/

theorem isValidMsgText_iff (cs : List Char) :
    isValidMsgText cs = true ↔
      (cs.length = 30 ∧ cs.getD 0 ' ' = '*' ∧ cs.getD 29 ' ' = ';') := by
  unfold isValidMsgText
  split_ifs with h1 h2
  · simp only [Bool.false_eq_true, false_iff]
    tauto
  · simp only [Bool.false_eq_true, false_iff]
    tauto
  · push_neg at h1 h2
    simp only [true_iff]
    exact ⟨h1, h2.1, h2.2⟩

/-- Claim C6 (amended): a raw line is parsed into a frame exactly when it has
length 30, begins with `*` and ends with `;`; the 28 middle characters are
NOT checked for hex-ness (each non-hex byte pair decodes to 0). -/
theorem C6_parse_iff (cs : List Char) :
    (parseADSB cs).isSome = true ↔
      (cs.length = 30 ∧ cs.getD 0 ' ' = '*' ∧ cs.getD 29 ' ' = ';') := by
  rw [← isValidMsgText_iff]
  unfold parseADSB
  split_ifs with h
  · simp [h]
  · simp [h]

/-- The malformed line `*ZZZZZZZZZZZZZZZZZZZZZZZZZZZZ;` (28 non-hex middles). -/
def c6badLine : List Char := "*ZZZZZZZZZZZZZZZZZZZZZZZZZZZZ;".toList

/-- Claim C6 counterexample: a correctly delimited 30-character line whose 28
middle characters are all non-hex is NOT discarded — it parses to an
all-zero frame. -/
theorem C6_counterexample :
    c6badLine.length = 30 ∧
    parseADSB c6badLine = some [0, 0, 0, 0, 0, 0, 0, 0, 0, 0, 0, 0, 0, 0] := by
  constructor
  · decide
  · decide

/-! ### Claim C3 -/

/-- Claim C3 (amended): a DF 18 frame whose trailing three bytes equal its
computed checksum initially passes the CRC check, but since DF 18 is NOT in
the `DF 11 || DF 17` address branch, `bruteForceAP` runs, fails (18 is not an
AP-xored format), and resets `crc_ok` to `false`; `error_bit` stays `-1` and
no ICAO address is inserted into the cache. -/
theorem C3_df18_not_cached (fix_errors aggressive : Bool) (seen : Nat → Bool)
    (msg : List Nat) (hdf : msg.getD 0 0 >>> 3 = 18)
    (hcrc : trailingCrc msg 56 = modesChecksum msg 56) :
    (decodeModesMessage fix_errors aggressive seen msg).1.crcok = false ∧
    (decodeModesMessage fix_errors aggressive seen msg).1.errorbit = -1 ∧
    (decodeModesMessage fix_errors aggressive seen msg).2 = none := by
  have h56 : modesMessageLenByType 18 = 56 := rfl
  have hok : (trailingCrc msg 56 == modesChecksum msg 56) = true := beq_iff_eq.mpr hcrc
  unfold decodeModesMessage
  simp only [hdf, h56, hok, repairStage, addrStage, bruteForceAP]
  norm_num

/-- Claim C3 counterexample: the DF 18 frame `90010203506B1F` carries a valid
CRC, yet decoding yields `crc_ok = false` (not `true`) and no cache
insertion. -/
theorem C3_counterexample :
    f018.getD 0 0 >>> 3 = 18 ∧
    trailingCrc f018 56 = modesChecksum f018 56 ∧
    (decodeModesMessage true false (fun _ => false) f018).1.crcok = false ∧
    (decodeModesMessage true false (fun _ => false) f018).2 = none := by
  refine ⟨by decide, by decide, by decide, by decide⟩

/-- Witness for the amended C3 at the concrete frame `f018`. -/
theorem C3_witness :
    f018.getD 0 0 >>> 3 = 18 ∧
    trailingCrc f018 56 = modesChecksum f018 56 ∧
    ((decodeModesMessage true false (fun _ => false) f018).1.crcok = false ∧
     (decodeModesMessage true false (fun _ => false) f018).1.errorbit = -1 ∧
     (decodeModesMessage true false (fun _ => false) f018).2 = none) :=
  ⟨by decide, by decide,
   C3_df18_not_cached true false (fun _ => false) f018 (by decide) (by decide)⟩

/-! ### Claim C1 -/

/-- Claim C1: the Go source declares `n` as a `byte` in `decodeAC12Field`, so
`(msg[5]>>1)<<4` is truncated mod 256 and only 8 of the intended 11 bits of N
survive.  On the S2 frame `8D40621D58C382D690C8AC2863A7` (DF 17, ME type 11,
Q-bit 1) the code therefore reports altitude `24·25−1000 = −400` feet, while
the 11-bit assembly the claim (and the upstream dump1090 C code) describes
gives `1560·25−1000 = 38000` feet. -/
theorem C1_ac12_truncation :
    (decodeModesMessage true false (fun _ => false) s2frame).1.msgtype = 17 ∧
    (decodeModesMessage true false (fun _ => false) s2frame).1.metype = 11 ∧
    s2frame.getD 5 0 &&& 1 = 1 ∧
    (decodeModesMessage true false (fun _ => false) s2frame).1.crcok = true ∧
    (decodeModesMessage true false (fun _ => false) s2frame).1.altitude = -400 ∧
    (decodeModesMessage true false (fun _ => false) s2frame).1.unit = MODES_UNIT_FEET ∧
    ((((s2frame.getD 5 0 >>> 1) <<< 4) ||| ((s2frame.getD 6 0 &&& 0xF0) >>> 4) : Nat) : Int)
        * 25 - 1000 = 38000 := by
  refine ⟨by decide, by decide, by decide, by decide, by decide, by decide, by decide⟩

/-! ### Claims C2 and C4 -/

/-- Claim C2: with `aggressive = false` and a DF 11 frame (two conditions the
claim says must each rule the search out), a two-bit corruption that defeats
the single-bit repair still drives `fixTwoBitsErrors`: the Go `else if` runs
it in its init statement before consulting `aggressive && msgtype == 17`, and
its result `5 | (6<<8) = 1541` is recorded in `errorbit` (and its commit has
rewritten the internal buffer). -/
theorem C2_twobit_search_runs_ungated :
    fixSingleBitErrors f011c 56 = (f011c, -1) ∧
    (decodeModesMessage true false (fun _ => false) f011c).1.msgtype = 11 ∧
    (decodeModesMessage true false (fun _ => false) f011c).1.errorbit = 1541 ∧
    (decodeModesMessage true false (fun _ => false) f011c).1.msg = f011 := by
  refine ⟨by decide, by decide, by decide, by decide⟩

/-- Claim C4: the decoded record for the two-bit-corrupted DF 11 frame
`f011c` (default configuration: `fix_errors = true`, `aggressive = false`)
has `errorbit = 1541 ≠ -1` while `crcok = false`, because the `else if` init
statement stores the `fixTwoBitsErrors` result in `errorbit` even when the
`aggressive && msgtype == 17` branch is not taken. -/
theorem C4_errorbit_without_crcok :
    (decodeModesMessage true false (fun _ => false) f011c).1.errorbit ≠ -1 ∧
    (decodeModesMessage true false (fun _ => false) f011c).1.crcok = false := by
  refine ⟨by decide, by decide⟩

/-! ### CRC linearity infrastructure (for claim C8)

The single-bit repair scan is analysed through the syndrome
`checksum ^^^ trailing CRC`: flipping one message bit xors a fixed 24-bit
delta into the syndrome, and the 56 (resp. 112) deltas are pairwise distinct
and nonzero, so the ascending scan of `fixSingleBitErrors` stops exactly at
the flipped position. -/

theorem getD_set_self_nat {l : List Nat} {i : Nat} (h : i < l.length) (v d : Nat) :
    (l.set i v).getD i d = v := by
  rw [List.getD_eq_getElem?_getD, List.getElem?_set_self h]
  rfl

theorem getD_set_ne_nat {l : List Nat} {i j : Nat} (h : i ≠ j) (v d : Nat) :
    (l.set i v).getD j d = l.getD j d := by
  rw [List.getD_eq_getElem?_getD, List.getElem?_set_ne h, ← List.getD_eq_getElem?_getD]

theorem set_getD_self_nat : ∀ (l : List Nat) (i : Nat), i < l.length →
    l.set i (l.getD i 0) = l
  | [], i, h => by cases h
  | a :: l, 0, _ => rfl
  | a :: l, i + 1, h => by
    simp only [List.set_cons_succ, List.getD_cons_succ]
    rw [set_getD_self_nat l i (by simpa using h)]

theorem xor_left_comm_nat (a b c : Nat) : a ^^^ (b ^^^ c) = b ^^^ (a ^^^ c) := by
  rw [← Nat.xor_assoc, Nat.xor_comm a b, Nat.xor_assoc]

theorem xor_cancel_left_nat (a b : Nat) : a ^^^ (a ^^^ b) = b := by
  rw [← Nat.xor_assoc, Nat.xor_self, Nat.zero_xor]

theorem getBitB_eq_testBit (msg : List Nat) (j : Nat) :
    getBitB msg j = (msg.getD (j / 8) 0).testBit (7 - j % 8) := by
  unfold getBitB
  rw [Nat.one_shiftLeft, Nat.and_two_pow]
  cases h : (msg.getD (j / 8) 0).testBit (7 - j % 8) <;>
    simp [h, Nat.pow_eq_zero]

theorem getBitB_flipBit_self (msg : List Nat) (k : Nat) (hl : k / 8 < msg.length) :
    getBitB (flipBit msg k) k = !getBitB msg k := by
  rw [getBitB_eq_testBit, getBitB_eq_testBit]
  unfold flipBit
  rw [getD_set_self_nat hl, Nat.one_shiftLeft, Nat.testBit_xor,
      Nat.testBit_two_pow_self, Bool.xor_true]

theorem getBitB_flipBit_ne (msg : List Nat) (k i : Nat) (hl : k / 8 < msg.length)
    (hne : i ≠ k) : getBitB (flipBit msg k) i = getBitB msg i := by
  rw [getBitB_eq_testBit, getBitB_eq_testBit]
  unfold flipBit
  by_cases hb : i / 8 = k / 8
  · rw [hb, getD_set_self_nat hl, Nat.one_shiftLeft, Nat.testBit_xor]
    have hmod : i % 8 ≠ k % 8 := by
      intro hmm
      exact hne (by omega)
    rw [Nat.testBit_two_pow_of_ne (by omega)]
    simp
  · rw [getD_set_ne_nat (fun hh => hb hh.symm)]

theorem checksumLoop_acc (msg : List Nat) :
    ∀ (ts : List Nat) (j c : Nat),
      checksumLoop msg j ts c = c ^^^ checksumLoop msg j ts 0
  | [], j, c => by simp [checksumLoop]
  | t :: ts, j, c => by
    simp only [checksumLoop]
    rw [checksumLoop_acc msg ts (j + 1) (if getBitB msg j then c ^^^ t else c),
        checksumLoop_acc msg ts (j + 1) (if getBitB msg j then 0 ^^^ t else 0)]
    cases h : getBitB msg j <;> simp [Nat.xor_assoc]

theorem checksumLoop_congr (m1 m2 : List Nat) :
    ∀ (ts : List Nat) (j c : Nat),
      (∀ i, j ≤ i → i < j + ts.length → getBitB m1 i = getBitB m2 i) →
      checksumLoop m1 j ts c = checksumLoop m2 j ts c
  | [], j, c, _ => rfl
  | t :: ts, j, c, h => by
    simp only [checksumLoop]
    rw [h j le_rfl (by simp)]
    exact checksumLoop_congr m1 m2 ts (j + 1) _
      (fun i h1 h2 => h i (by omega) (by simp at h2 ⊢; omega))

theorem checksumLoop_flip (m m' : List Nat) (k : Nat)
    (hne : ∀ i, i ≠ k → getBitB m' i = getBitB m i)
    (hk : getBitB m' k = !getBitB m k) :
    ∀ (ts : List Nat) (j : Nat), j ≤ k → k < j + ts.length →
      checksumLoop m' j ts 0 = checksumLoop m j ts 0 ^^^ ts.getD (k - j) 0
  | [], j, h1, h2 => by simp at h2; omega
  | t :: ts, j, h1, h2 => by
    by_cases hj : j = k
    · subst hj
      simp only [checksumLoop]
      rw [checksumLoop_acc m' ts (j + 1), checksumLoop_acc m ts (j + 1)]
      rw [checksumLoop_congr m' m ts (j + 1) 0
            (fun i hi1 hi2 => hne i (by omega))]
      rw [hk, Nat.sub_self]
      cases h : getBitB m j <;>
        simp [List.getD_cons_zero, Nat.xor_assoc, Nat.xor_comm, xor_left_comm_nat,
              xor_cancel_left_nat]
    · have hjk : j < k := by omega
      simp only [checksumLoop]
      rw [checksumLoop_acc m' ts (j + 1) _, checksumLoop_acc m ts (j + 1) _]
      rw [checksumLoop_flip m m' k hne hk ts (j + 1) (by omega) (by simp at h2 ⊢; omega)]
      rw [hne j (by omega)]
      have hsub : k - j = (k - (j + 1)) + 1 := by omega
      rw [hsub, List.getD_cons_succ]
      cases h : getBitB m j <;>
        simp [Nat.xor_assoc, Nat.xor_comm, xor_left_comm_nat, xor_cancel_left_nat]

theorem chkTable_length_56 : (chkTable 56).length = 56 := by decide
theorem chkTable_length_112 : (chkTable 112).length = 112 := by decide

/-- Flipping message bit `k` xors table entry `k` into the checksum. -/
theorem modesChecksum_flipBit (msg : List Nat) (bits k : Nat)
    (hbits : bits = 56 ∨ bits = 112) (hl : k / 8 < msg.length) (hk : k < bits) :
    modesChecksum (flipBit msg k) bits =
      modesChecksum msg bits ^^^ (chkTable bits).getD k 0 := by
  have hlen : (chkTable bits).length = bits := by
    rcases hbits with rfl | rfl
    · exact chkTable_length_56
    · exact chkTable_length_112
  unfold modesChecksum
  have h := checksumLoop_flip msg (flipBit msg k) k
    (fun i hi => getBitB_flipBit_ne msg k i hl hi)
    (getBitB_flipBit_self msg k hl)
    (chkTable bits) 0 (Nat.zero_le k) (by omega)
  simpa using h

theorem getD_lt_256 (msg : List Nat) (hbytes : ∀ b ∈ msg, b < 256) (i : Nat) :
    msg.getD i 0 < 256 := by
  by_cases h : i < msg.length
  · rw [List.getD_eq_getElem msg 0 h]
    exact hbytes _ (List.getElem_mem h)
  · rw [List.getD_eq_default msg 0 (by omega)]
    norm_num

theorem two_pow_byte_lt (p : Nat) (hp : p < 8) : (1 <<< p : Nat) < 256 := by
  rw [Nat.one_shiftLeft]
  calc (2 : Nat) ^ p < 2 ^ 8 := Nat.pow_lt_pow_right (by norm_num) hp
  _ = 256 := by norm_num

theorem testBit_byte_high {w : Nat} (hw : w < 256) {n : Nat} (hn : 8 ≤ n) :
    w.testBit n = false :=
  Nat.testBit_eq_false_of_lt
    (lt_of_lt_of_le hw (by calc (256 : Nat) = 2 ^ 8 := by norm_num
                             _ ≤ 2 ^ n := Nat.pow_le_pow_right (by norm_num) hn))

/-- Bit-level shape of the 24-bit field `u << 16 | v << 8 | w`. -/
theorem testBit_or3 {u v w : Nat} (hu : u < 256) (hv : v < 256) (hw : w < 256) (i : Nat) :
    ((u <<< 16) ||| (v <<< 8) ||| w).testBit i =
      (if i < 8 then w.testBit i
       else if i < 16 then v.testBit (i - 8)
       else if i < 24 then u.testBit (i - 16)
       else false) := by
  rw [Nat.testBit_or, Nat.testBit_or, Nat.testBit_shiftLeft, Nat.testBit_shiftLeft]
  by_cases h1 : i < 8
  · rw [if_pos h1, decide_eq_false (by omega : ¬ i ≥ 16), decide_eq_false (by omega : ¬ i ≥ 8)]
    simp
  · by_cases h2 : i < 16
    · rw [if_neg h1, if_pos h2, decide_eq_false (by omega : ¬ i ≥ 16),
          decide_eq_true (by omega : i ≥ 8), testBit_byte_high hw (show 8 ≤ i by omega)]
      simp
    · by_cases h3 : i < 24
      · rw [if_neg h1, if_neg h2, if_pos h3, decide_eq_true (by omega : i ≥ 16),
            decide_eq_true (by omega : i ≥ 8), testBit_byte_high hw (show 8 ≤ i by omega),
            testBit_byte_high hv (show 8 ≤ i - 8 by omega)]
        simp
      · rw [if_neg h1, if_neg h2, if_neg h3,
            testBit_byte_high hw (show 8 ≤ i by omega),
            testBit_byte_high hv (show 8 ≤ i - 8 by omega),
            testBit_byte_high hu (show 8 ≤ i - 16 by omega)]
        simp

theorem byte_xor_lt_256 {w p : Nat} (hw : w < 256) (hp : p < 8) :
    w ^^^ 2 ^ p < 256 := by
  have h1 : w < 2 ^ 8 := by norm_num at hw ⊢; omega
  have h2 : (2 : Nat) ^ p < 2 ^ 8 := Nat.pow_lt_pow_right (by norm_num) hp
  have := Nat.xor_lt_two_pow h1 h2
  norm_num at this ⊢
  omega

theorem or3_flip_lo {u v w : Nat} (hu : u < 256) (hv : v < 256) (hw : w < 256)
    {p : Nat} (hp : p < 8) :
    ((u <<< 16) ||| (v <<< 8) ||| (w ^^^ (1 <<< p))) =
      (((u <<< 16) ||| (v <<< 8) ||| w) ^^^ (1 <<< p)) := by
  have hw2 : w ^^^ 2 ^ p < 256 := byte_xor_lt_256 hw hp
  apply Nat.eq_of_testBit_eq
  intro i
  simp only [Nat.one_shiftLeft, testBit_or3 hu hv hw2, testBit_or3 hu hv hw,
             Nat.testBit_xor, Nat.testBit_two_pow]
  by_cases h1 : i < 8
  · rw [if_pos h1, if_pos h1]
  · rw [if_neg h1, if_neg h1, decide_eq_false (by omega : ¬ (p = i))]
    simp

theorem or3_flip_mid {u v w : Nat} (hu : u < 256) (hv : v < 256) (hw : w < 256)
    {p : Nat} (hp : p < 8) :
    ((u <<< 16) ||| ((v ^^^ (1 <<< p)) <<< 8) ||| w) =
      (((u <<< 16) ||| (v <<< 8) ||| w) ^^^ (1 <<< (8 + p))) := by
  have hv2 : v ^^^ 2 ^ p < 256 := byte_xor_lt_256 hv hp
  apply Nat.eq_of_testBit_eq
  intro i
  simp only [Nat.one_shiftLeft, testBit_or3 hu hv2 hw, testBit_or3 hu hv hw,
             Nat.testBit_xor, Nat.testBit_two_pow]
  by_cases h1 : i < 8
  · rw [if_pos h1, if_pos h1, decide_eq_false (by omega : ¬ (8 + p = i))]
    simp
  · rw [if_neg h1, if_neg h1]
    by_cases h2 : i < 16
    · rw [if_pos h2, if_pos h2]
      congr 1
      exact decide_eq_decide.mpr (by omega)
    · rw [if_neg h2, if_neg h2, decide_eq_false (by omega : ¬ (8 + p = i))]
      by_cases h3 : i < 24 <;> simp [h3]

theorem or3_flip_hi {u v w : Nat} (hu : u < 256) (hv : v < 256) (hw : w < 256)
    {p : Nat} (hp : p < 8) :
    (((u ^^^ (1 <<< p)) <<< 16) ||| (v <<< 8) ||| w) =
      (((u <<< 16) ||| (v <<< 8) ||| w) ^^^ (1 <<< (16 + p))) := by
  have hu2 : u ^^^ 2 ^ p < 256 := byte_xor_lt_256 hu hp
  apply Nat.eq_of_testBit_eq
  intro i
  simp only [Nat.one_shiftLeft, testBit_or3 hu2 hv hw, testBit_or3 hu hv hw,
             Nat.testBit_xor, Nat.testBit_two_pow]
  by_cases h1 : i < 8
  · rw [if_pos h1, if_pos h1, decide_eq_false (by omega : ¬ (16 + p = i))]
    simp
  · rw [if_neg h1, if_neg h1]
    by_cases h2 : i < 16
    · rw [if_pos h2, if_pos h2, decide_eq_false (by omega : ¬ (16 + p = i))]
      simp
    · rw [if_neg h2, if_neg h2]
      by_cases h3 : i < 24
      · rw [if_pos h3, if_pos h3]
        congr 1
        exact decide_eq_decide.mpr (by omega)
      · rw [if_neg h3, if_neg h3, decide_eq_false (by omega : ¬ (16 + p = i))]
        simp

/-- Flipping message bit `k` xors `2^(bits-1-k)` into the trailing CRC field
when `k` lies in the final 24 bits, and leaves it unchanged otherwise. -/
theorem trailingCrc_flipBit (msg : List Nat) (bits k : Nat)
    (hbits : bits = 56 ∨ bits = 112) (hlen : msg.length = 14)
    (hbytes : ∀ b ∈ msg, b < 256) (hk : k < bits) :
    trailingCrc (flipBit msg k) bits =
      trailingCrc msg bits ^^^ (if bits - 24 ≤ k then 1 <<< (bits - 1 - k) else 0) := by
  have hu := getD_lt_256 msg hbytes
  have hp8 : 7 - k % 8 < 8 := by omega
  rcases hbits with rfl | rfl
  · simp only [show (56:Nat)/8 - 3 = 4 from rfl, show (56:Nat)/8 - 2 = 5 from rfl,
               show (56:Nat)/8 - 1 = 6 from rfl, trailingCrc, flipBit]
    by_cases hlow : k < 32
    · rw [if_neg (by omega), Nat.xor_zero,
          getD_set_ne_nat (by omega), getD_set_ne_nat (by omega),
          getD_set_ne_nat (by omega)]
    · rw [if_pos (by omega)]
      have hd : k / 8 = 4 ∨ k / 8 = 5 ∨ k / 8 = 6 := by omega
      rcases hd with hd | hd | hd
      · rw [hd, getD_set_self_nat (by omega) _ 0, getD_set_ne_nat (by omega),
            getD_set_ne_nat (by omega),
            show (56 - 1 - k) = 16 + (7 - k % 8) from by omega]
        exact or3_flip_hi (hu 4) (hu 5) (hu 6) hp8
      · rw [hd, getD_set_self_nat (by omega) _ 0, getD_set_ne_nat (by omega),
            getD_set_ne_nat (by omega),
            show (56 - 1 - k) = 8 + (7 - k % 8) from by omega]
        exact or3_flip_mid (hu 4) (hu 5) (hu 6) hp8
      · rw [hd, getD_set_self_nat (by omega) _ 0, getD_set_ne_nat (by omega),
            getD_set_ne_nat (by omega),
            show (56 - 1 - k) = 7 - k % 8 from by omega]
        exact or3_flip_lo (hu 4) (hu 5) (hu 6) hp8
  · simp only [show (112:Nat)/8 - 3 = 11 from rfl, show (112:Nat)/8 - 2 = 12 from rfl,
               show (112:Nat)/8 - 1 = 13 from rfl, trailingCrc, flipBit]
    by_cases hlow : k < 88
    · rw [if_neg (by omega), Nat.xor_zero,
          getD_set_ne_nat (by omega), getD_set_ne_nat (by omega),
          getD_set_ne_nat (by omega)]
    · rw [if_pos (by omega)]
      have hd : k / 8 = 11 ∨ k / 8 = 12 ∨ k / 8 = 13 := by omega
      rcases hd with hd | hd | hd
      · rw [hd, getD_set_self_nat (by omega) _ 0, getD_set_ne_nat (by omega),
            getD_set_ne_nat (by omega),
            show (112 - 1 - k) = 16 + (7 - k % 8) from by omega]
        exact or3_flip_hi (hu 11) (hu 12) (hu 13) hp8
      · rw [hd, getD_set_self_nat (by omega) _ 0, getD_set_ne_nat (by omega),
            getD_set_ne_nat (by omega),
            show (112 - 1 - k) = 8 + (7 - k % 8) from by omega]
        exact or3_flip_mid (hu 11) (hu 12) (hu 13) hp8
      · rw [hd, getD_set_self_nat (by omega) _ 0, getD_set_ne_nat (by omega),
            getD_set_ne_nat (by omega),
            show (112 - 1 - k) = 7 - k % 8 from by omega]
        exact or3_flip_lo (hu 11) (hu 12) (hu 13) hp8

theorem flipBit_length (msg : List Nat) (k : Nat) :
    (flipBit msg k).length = msg.length := by
  simp [flipBit]

theorem flipBit_bytes (msg : List Nat) (k : Nat) (hbytes : ∀ b ∈ msg, b < 256) :
    ∀ b ∈ flipBit msg k, b < 256 := by
  intro b hb
  rcases List.mem_or_eq_of_mem_set hb with h | rfl
  · exact hbytes b h
  · rw [Nat.one_shiftLeft]
    exact byte_xor_lt_256 (getD_lt_256 msg hbytes _) (by omega)

theorem flipBit_flipBit (msg : List Nat) (k : Nat) (hl : k / 8 < msg.length) :
    flipBit (flipBit msg k) k = msg := by
  unfold flipBit
  rw [getD_set_self_nat hl, List.set_set, Nat.xor_assoc, Nat.xor_self, Nat.xor_zero]
  exact set_getD_self_nat msg (k / 8) hl

/-- The syndrome delta of a single-bit flip: the parity-table entry xored
with the trailing-CRC contribution. -/
def bitDelta (bits k : Nat) : Nat :=
  (chkTable bits).getD k 0 ^^^ (if bits - 24 ≤ k then 1 <<< (bits - 1 - k) else 0)

/-- The parity syndrome: computed checksum xor trailing CRC field.  A frame
passes the CRC check iff its syndrome is zero. -/
def syndrome (msg : List Nat) (bits : Nat) : Nat :=
  modesChecksum msg bits ^^^ trailingCrc msg bits

theorem syndrome_flipBit (msg : List Nat) (bits k : Nat)
    (hbits : bits = 56 ∨ bits = 112) (hlen : msg.length = 14)
    (hbytes : ∀ b ∈ msg, b < 256) (hk : k < bits) :
    syndrome (flipBit msg k) bits = syndrome msg bits ^^^ bitDelta bits k := by
  have hl : k / 8 < msg.length := by rcases hbits with rfl | rfl <;> omega
  unfold syndrome bitDelta
  rw [modesChecksum_flipBit msg bits k hbits hl hk,
      trailingCrc_flipBit msg bits k hbits hlen hbytes hk]
  simp [Nat.xor_assoc, Nat.xor_comm, xor_left_comm_nat]

theorem valid_beq_iff (msg : List Nat) (bits : Nat) :
    (trailingCrc msg bits == modesChecksum msg bits) = true ↔ syndrome msg bits = 0 := by
  rw [beq_iff_eq]
  unfold syndrome
  rw [xor_eq_zero_iff]
  exact ⟨fun h => h.symm, fun h => h.symm⟩

theorem bitDelta_nodup_56 : ((List.range 56).map (bitDelta 56)).Nodup := by decide
theorem bitDelta_nodup_112 : ((List.range 112).map (bitDelta 112)).Nodup := by decide
theorem bitDelta_pos_56 : ∀ k ∈ List.range 56, bitDelta 56 k ≠ 0 := by decide
theorem bitDelta_pos_112 : ∀ k ∈ List.range 112, bitDelta 112 k ≠ 0 := by decide

theorem inj_of_nodup_map_range {f : Nat → Nat} {n : Nat}
    (h : ((List.range n).map f).Nodup) {j k : Nat} (hj : j < n) (hk : k < n)
    (hfe : f j = f k) : j = k := by
  by_contra hne
  rw [List.Nodup, List.pairwise_map] at h
  have hsym : Symmetric (fun a b : Nat => f a ≠ f b) := fun a b hab he => hab he.symm
  exact h.forall hsym (List.mem_range.mpr hj) (List.mem_range.mpr hk) hne hfe

theorem find_eq_some_of_unique {p : Nat → Bool} {k : Nat} :
    ∀ l : List Nat, k ∈ l → (∀ j ∈ l, p j = true → j = k) → p k = true →
      l.find? p = some k
  | [], hmem, _, _ => by cases hmem
  | a :: l, hmem, huniq, hpk => by
    by_cases hpa : p a = true
    · rw [List.find?_cons_of_pos _ hpa]
      exact congrArg some (huniq a (List.mem_cons_self a l) hpa)
    · rw [List.find?_cons_of_neg _ (by simp [hpa])]
      refine find_eq_some_of_unique l ?_ (fun j hj hpj => huniq j (List.mem_cons_of_mem a hj) hpj) hpk
      rcases List.mem_cons.mp hmem with rfl | h
      · exact absurd hpk hpa
      · exact h

/-- The single-bit repair scan on a one-bit corruption of a CRC-valid frame
finds exactly the corrupted position and restores the original frame. -/
theorem fixSingleBitErrors_flip (F : List Nat) (bits k : Nat)
    (hbits : bits = 56 ∨ bits = 112) (hlen : F.length = 14)
    (hbytes : ∀ b ∈ F, b < 256) (hk : k < bits)
    (hvalid : trailingCrc F bits = modesChecksum F bits) :
    fixSingleBitErrors (flipBit F k) bits = (F, (k : Int)) := by
  have hl : k / 8 < F.length := by rcases hbits with rfl | rfl <;> omega
  have hlen' : (flipBit F k).length = 14 := by rw [flipBit_length, hlen]
  have hbytes' := flipBit_bytes F k hbytes
  have hsF : syndrome F bits = 0 := by
    unfold syndrome
    exact xor_eq_zero_iff.mpr hvalid.symm
  have hsF' : syndrome (flipBit F k) bits = bitDelta bits k := by
    rw [syndrome_flipBit F bits k hbits hlen hbytes hk, hsF, Nat.zero_xor]
  have hinj : ∀ j, j < bits → bitDelta bits j = bitDelta bits k → j = k := by
    rcases hbits with rfl | rfl
    · exact fun j hj he => inj_of_nodup_map_range bitDelta_nodup_56 hj hk he
    · exact fun j hj he => inj_of_nodup_map_range bitDelta_nodup_112 hj hk he
  have hpk : (trailingCrc (flipBit (flipBit F k) k) bits ==
      modesChecksum (flipBit (flipBit F k) k) bits) = true := by
    rw [flipBit_flipBit F k hl]
    exact beq_iff_eq.mpr hvalid
  have huniq : ∀ j ∈ List.range bits,
      (trailingCrc (flipBit (flipBit F k) j) bits ==
        modesChecksum (flipBit (flipBit F k) j) bits) = true → j = k := by
    intro j hj hpj
    have hjlt : j < bits := List.mem_range.mp hj
    have h0 : syndrome (flipBit (flipBit F k) j) bits = 0 := (valid_beq_iff _ _).mp hpj
    rw [syndrome_flipBit (flipBit F k) bits j hbits hlen' hbytes' hjlt, hsF'] at h0
    exact hinj j hjlt (xor_eq_zero_iff.mp h0).symm
  unfold fixSingleBitErrors
  rw [find_eq_some_of_unique (List.range bits) (List.mem_range.mpr hk) huniq hpk]
  show (flipBit (flipBit F k) k, (k : Int)) = (F, (k : Int))
  rw [flipBit_flipBit F k hl]

theorem getD_zero_flipBit (msg : List Nat) (k : Nat) (hk5 : 5 ≤ k)
    (hlen : msg.length = 14) :
    (flipBit msg k).getD 0 0 >>> 3 = msg.getD 0 0 >>> 3 := by
  by_cases h8 : k < 8
  · have hd : k / 8 = 0 := by omega
    unfold flipBit
    rw [hd, getD_set_self_nat (by omega)]
    apply Nat.eq_of_testBit_eq
    intro i
    rw [Nat.testBit_shiftRight, Nat.testBit_shiftRight, Nat.one_shiftLeft, Nat.testBit_xor,
        Nat.testBit_two_pow_of_ne (by omega)]
    simp
  · have hd : k / 8 ≠ 0 := by omega
    unfold flipBit
    rw [getD_set_ne_nat hd]

theorem crc_beq_false_of_flip (F : List Nat) (bits k : Nat)
    (hbits : bits = 56 ∨ bits = 112) (hlen : F.length = 14)
    (hbytes : ∀ b ∈ F, b < 256) (hk : k < bits)
    (hvalid : trailingCrc F bits = modesChecksum F bits) :
    (trailingCrc (flipBit F k) bits == modesChecksum (flipBit F k) bits) = false := by
  have hsF : syndrome F bits = 0 := by
    unfold syndrome
    exact xor_eq_zero_iff.mpr hvalid.symm
  have hsF' : syndrome (flipBit F k) bits = bitDelta bits k := by
    rw [syndrome_flipBit F bits k hbits hlen hbytes hk, hsF, Nat.zero_xor]
  have hnz : bitDelta bits k ≠ 0 := by
    rcases hbits with rfl | rfl
    · exact bitDelta_pos_56 k (List.mem_range.mpr hk)
    · exact bitDelta_pos_112 k (List.mem_range.mpr hk)
  rw [Bool.eq_false_iff]
  intro hc
  exact hnz (hsF' ▸ (valid_beq_iff _ _).mp hc)

theorem repairStage_flip (aggressive : Bool) (df bits : Nat) (F : List Nat) (k : Nat)
    (crc : Nat) (hdf : df = 11 ∨ df = 17)
    (hfix : fixSingleBitErrors (flipBit F k) bits = (F, (k : Int))) :
    repairStage true aggressive df bits (flipBit F k) crc false =
      (F, modesChecksum F bits, true, (k : Int)) := by
  unfold repairStage
  rw [if_pos ⟨rfl, rfl, hdf⟩, hfix]
  have hkne : ((k : Nat) : Int) ≠ -1 := by omega
  simp [hkne]

theorem addrStage_df11_17 (seen : Nat → Bool) (df bits : Nat) (msg : List Nat)
    (errorbit : Int) (aa1 aa2 aa3 : Nat) (hdf : df = 11 ∨ df = 17)
    (he : errorbit ≠ -1) :
    addrStage seen df bits msg true errorbit aa1 aa2 aa3 = (true, aa1, aa2, aa3, none) := by
  unfold addrStage
  rw [if_neg (by rcases hdf with rfl | rfl <;> simp)]
  rw [if_neg (fun hc => he hc.2)]

/-- Claim C8 (amended): for every CRC-valid 14-byte frame `F` of DF 11 or 17
and every flip of a single bit `k` with `5 ≤ k < bits` (a flip outside the
5-bit DF field and inside the frame's `bits`-bit extent), decoding the
corrupted frame with `fix_errors` on yields `crc_ok = true` and `error_bit`
equal to the flipped position.  (Flips inside the DF field change the
downlink format, so the repair path is not taken at all — see the
counterexample — and flips at `k ≥ bits` of a short frame are outside the
checked extent.) -/
theorem C8_single_flip_decode (aggressive : Bool) (seen : Nat → Bool)
    (F : List Nat) (k df bits : Nat)
    (hdfv : F.getD 0 0 >>> 3 = df) (hdf : df = 11 ∨ df = 17)
    (hbitsv : modesMessageLenByType df = bits)
    (hlen : F.length = 14) (hbytes : ∀ b ∈ F, b < 256)
    (hvalid : trailingCrc F bits = modesChecksum F bits)
    (hk5 : 5 ≤ k) (hkb : k < bits) :
    (decodeModesMessage true aggressive seen (flipBit F k)).1.crcok = true ∧
    (decodeModesMessage true aggressive seen (flipBit F k)).1.errorbit = (k : Int) := by
  have hbits : bits = 56 ∨ bits = 112 := by
    rcases hdf with h | h <;> rw [← hbitsv, h]
    · left
      rfl
    · right
      rfl
  have hdf' : (flipBit F k).getD 0 0 >>> 3 = df := by
    rw [getD_zero_flipBit F k hk5 hlen, hdfv]
  have hfix : fixSingleBitErrors (flipBit F k) bits = (F, (k : Int)) :=
    fixSingleBitErrors_flip F bits k hbits hlen hbytes hkb hvalid
  have hbeq := crc_beq_false_of_flip F bits k hbits hlen hbytes hkb hvalid
  have hrep := repairStage_flip aggressive df bits F k
    (trailingCrc (flipBit F k) bits) hdf hfix
  have haddr : ∀ a1 a2 a3, addrStage seen df bits F true ((k : Nat) : Int) a1 a2 a3 =
      (true, a1, a2, a3, none) :=
    fun a1 a2 a3 => addrStage_df11_17 seen df bits F _ a1 a2 a3 hdf (by omega)
  unfold decodeModesMessage
  simp only [hdf', hbitsv, hbeq, hrep, haddr]
  rcases hdf with rfl | rfl
  · rw [if_neg (by decide : ¬ (11 : Nat) = 17)]
    exact ⟨rfl, rfl⟩
  · rw [if_pos rfl]
    split_ifs <;> exact ⟨rfl, rfl⟩

/-- Claim C8 counterexample: flipping bit 0 of the valid DF 11 frame `f011`
lands inside the DF field (the downlink format becomes 27), so the repair
path is never taken: decoding yields `crc_ok = false` and `error_bit = -1`,
not `crc_ok = true` with `error_bit = 0` as the claim requires of every
single-bit flip. -/
theorem C8_counterexample :
    trailingCrc f011 56 = modesChecksum f011 56 ∧
    f011.getD 0 0 >>> 3 = 11 ∧
    (decodeModesMessage true false (fun _ => false) (flipBit f011 0)).1.crcok = false ∧
    (decodeModesMessage true false (fun _ => false) (flipBit f011 0)).1.errorbit = -1 := by
  refine ⟨by decide, by decide, by decide, by decide⟩

/-- Witness for the amended C8: flipping bit 5 of the valid DF 11 frame
`f011` decodes with `crc_ok = true` and `error_bit = 5`. -/
theorem C8_witness :
    trailingCrc f011 56 = modesChecksum f011 56 ∧
    ((decodeModesMessage true false (fun _ => false) (flipBit f011 5)).1.crcok = true ∧
     (decodeModesMessage true false (fun _ => false) (flipBit f011 5)).1.errorbit =
       ((5 : Nat) : Int)) :=
  ⟨by decide,
   C8_single_flip_decode false (fun _ => false) f011 5 11 56 (by decide) (Or.inl rfl) rfl
     (by decide) (by decide) (by decide) (by decide) (by decide)⟩

end Go1090
